import Mathlib

/-!
Verification of the media-transcription pipeline (audio_transcribe.py).

The embedding models the MediaTranscriber class: file-extension
classification, the ffmpeg / pydub extraction strategies with fallback,
WAV passthrough, temporary-file lifecycle, the recognition step and the
stdout sentinel protocol, and the command-line entry point.

External collaborators (the ffmpeg process, the pydub decoding library,
the speech-recognition backend, temp-file deletion) are modelled as an
environment record Env whose fields describe their observable behaviour
for one invocation.  Filesystem state, temp-file bookkeeping and the
primary output stream live in a state record Core threaded explicitly;
each modelled function returns its result, the new Core, and the list of
diagnostic (stderr) lines it printed.
-/

set_option autoImplicit false

namespace AudioTranscribe

/-- Properties of a decoded audio segment, as pydub exposes them:
channel count, frame rate in Hz, and sample width in bytes. -/
structure Audio where
  channels : Nat
  frameRate : Nat
  sampleWidth : Nat
deriving Repr, DecidableEq

/-- pydub set_channels: replace the channel count. -/
def set_channels (a : Audio) (n : Nat) : Audio := { a with channels := n }

/-- pydub set_frame_rate: replace the frame rate. -/
def set_frame_rate (a : Audio) (r : Nat) : Audio := { a with frameRate := r }

/-- Observable behaviour of one ffmpeg invocation: its exit code, the
text it wrote on its diagnostic stream, and whether it wrote decoded
audio into the output file at all.  When it writes, the command line
fixes the format to mono, 16000 Hz, 16-bit PCM. -/
structure FfmpegBehavior where
  returncode : Int
  stderrText : String
  producesOutput : Bool
deriving Repr, DecidableEq

/-- Outcome of one request to the speech-recognition backend. -/
inductive RecResult where
  | text (s : String)
  | unknownValue
  | requestError (msg : String)
deriving Repr, DecidableEq

/-- Environment for one transcription session: the cached ffmpeg
availability probe, the behaviour of the external collaborators, and
whether temp-file deletion succeeds. -/
structure Env where
  ffmpeg_available : Bool
  ffmpeg : FfmpegBehavior
  pydubLoad : Option String → Except String Audio
  recognize : RecResult
  unlinkOk : Bool
  missingCritical : Bool

/-- Mutable world state threaded through a run: the temp-name counter,
every temp file ever created, the files currently on disk with their
audio content (none = file exists but holds no decodable audio), the
primary output stream, the pydub format hints used so far, and call
counters for the two extraction strategies. -/
structure Core where
  counter : Nat
  tempsCreated : List String
  disk : List (String × Option Audio)
  stdoutLines : List String
  hintsUsed : List (Option String)
  ffmpegCalls : Nat
  simpleCalls : Nat
deriving Repr, DecidableEq

/-- A file exists iff the disk association list has an entry for it. -/
def fileExists (c : Core) (p : String) : Bool :=
  (c.disk.lookup p).isSome

/-- Write audio content to a path (newest entry shadows older ones). -/
def writeFile (c : Core) (p : String) (a : Audio) : Core :=
  { c with disk := (p, some a) :: c.disk }

/-- Name of the n-th temporary file handed out by NamedTemporaryFile. -/
def tempName (n : Nat) : String := "tmp" ++ toString n ++ ".wav"

/-- tempfile.NamedTemporaryFile(suffix=".wav", delete=False): create a
fresh, initially empty file on disk and record it. -/
def createTemp (c : Core) : String × Core :=
  let name := tempName c.counter
  (name, { c with
            counter := c.counter + 1,
            tempsCreated := c.tempsCreated ++ [name],
            disk := (name, none) :: c.disk })

/-! String helpers modelling os.path.splitext(...)[1].lower() and
str.strip(), written over character lists so the kernel evaluates them
directly. -/

/-- Split a character list on a separator character. -/
def splitOnChar (sep : Char) : List Char → List (List Char)
  | [] => [[]]
  | c :: rest =>
    match splitOnChar sep rest with
    | [] => [[c]]
    | h :: t => if c == sep then [] :: h :: t else (c :: h) :: t

/-- Extension of a basename, os.path.splitext semantics: the suffix
starting at the last dot, empty when every character before that dot is
itself a leading dot. -/
def extOfBase (b : List Char) : List Char :=
  match splitOnChar '.' b with
  | [] => []
  | [_] => []
  | parts =>
    if (parts.dropLast).all (fun s => s.isEmpty) then []
    else '.' :: parts.getLastD []

/-- Lowercased extension of a path, as the source computes it with
os.path.splitext(media_file_path)[1].lower(). -/
def lowerExtOf (p : String) : String :=
  String.mk (((splitOnChar '/' p.toList).getLastD []
      |> extOfBase).map Char.toLower)

/-- Lowercase a whole string (str.lower on ASCII arguments). -/
def lowerStr (s : String) : String :=
  String.mk (s.toList.map Char.toLower)

/-- Python str.strip whitespace test. -/
def isWs (c : Char) : Bool :=
  c == ' ' || c == '\t' || c == '\n' || c == '\r'

/-- Python str.strip: drop leading and trailing whitespace. -/
def strTrim (s : String) : String :=
  String.mk (((s.toList.dropWhile isWs).reverse.dropWhile isWs).reverse)

/-- First line of a block of text (used to talk about the first line of
the captured ffmpeg diagnostic stream). -/
def firstLine (s : String) : String :=
  String.mk ((splitOnChar '\n' s.toList).headD [])

/-- Does pat occur at the start of l. -/
def matchAt : List Char → List Char → Bool
  | [], _ => true
  | _ :: _, [] => false
  | a :: as, b :: bs => a == b && matchAt as bs

/-- Does pat occur anywhere inside l. -/
def hasSub (pat : List Char) : List Char → Bool
  | [] => matchAt pat []
  | c :: rest => matchAt pat (c :: rest) || hasSub pat rest

/-- Substring test on strings. -/
def strContainsB (s pat : String) : Bool :=
  hasSub pat.toList s.toList

/-! The MediaTranscriber methods. -/

/-- MediaTranscriber.extract_audio_from_video_ffmpeg: create a temp file,
run ffmpeg with flags forcing mono, 16 kHz, 16-bit PCM into it, raise on
a non-zero exit code (printing the captured ffmpeg stderr first), and
otherwise return the temp path.  The output file is never checked for
existence or emptiness. -/
def extract_audio_from_video_ffmpeg (env : Env) (video_file_path : String)
    (c : Core) : Except String String × Core × List String :=
  let c0 := { c with ffmpegCalls := c.ffmpegCalls + 1 }
  let nc := createTemp c0
  let temp_audio_path := nc.1
  let c1 := if env.ffmpeg.producesOutput
            then writeFile nc.2 temp_audio_path (Audio.mk 1 16000 2)
            else nc.2
  let l0 := ["Extracting audio using ffmpeg: " ++ video_file_path,
             "Running ffmpeg command: ffmpeg -i " ++ video_file_path
               ++ " -vn -acodec pcm_s16le -ar 16000 -ac 1 -y " ++ temp_audio_path]
  if env.ffmpeg.returncode ≠ 0 then
    let msg := "FFmpeg failed with return code " ++ toString env.ffmpeg.returncode
    (Except.error msg, c1,
      l0 ++ ["FFmpeg stderr: " ++ env.ffmpeg.stderrText,
             "Error extracting audio with ffmpeg: " ++ msg])
  else
    (Except.ok temp_audio_path, c1, l0)

/-- MediaTranscriber.extract_audio_from_video_simple: create a temp file,
load the media generically with pydub (no format hint), resample to mono
16 kHz, export to the temp file.  The temp file is created before the
load, so a failed load leaves it behind. -/
def extract_audio_from_video_simple (env : Env) (video_file_path : String)
    (c : Core) : Except String String × Core × List String :=
  let c0 := { c with simpleCalls := c.simpleCalls + 1,
                     hintsUsed := c.hintsUsed ++ [none] }
  let nc := createTemp c0
  let l0 := ["Extracting audio using pydub: " ++ video_file_path]
  match env.pydubLoad none with
  | Except.error e =>
    (Except.error e, nc.2, l0 ++ ["Error extracting audio with pydub: " ++ e])
  | Except.ok audio =>
    let audio2 := set_frame_rate (set_channels audio 1) 16000
    (Except.ok nc.1, writeFile nc.2 nc.1 audio2, l0)

/-- Format string passed to pydub for each recognized compressed-audio
extension; none selects generic auto-detection. -/
def audioFormatHint (file_ext : String) : Option String :=
  if file_ext == ".mp3" then some "mp3"
  else if file_ext == ".m4a" then some "m4a"
  else if file_ext == ".ogg" then some "ogg"
  else if file_ext == ".flac" then some "flac"
  else if file_ext == ".opus" then some "opus"
  else if file_ext == ".aac" then some "aac"
  else if file_ext == ".wma" then some "wma"
  else if file_ext == ".webm" then some "webm"
  else none

/-- The video-formats list from convert_to_wav. -/
def video_formats : List String :=
  [".mp4", ".avi", ".mkv", ".mov", ".wmv", ".flv", ".webm", ".m4v", ".3gp"]

/-- Video branch of convert_to_wav: ffmpeg when available, falling back
to the pydub extraction on any ffmpeg failure; pydub directly when
ffmpeg is unavailable. -/
def convVideo (env : Env) (path : String) (c : Core) :
    Except String String × Core × List String :=
  if env.ffmpeg_available then
    let r := extract_audio_from_video_ffmpeg env path c
    match r.1 with
    | Except.ok p => (Except.ok p, r.2.1, r.2.2)
    | Except.error e =>
      let r2 := extract_audio_from_video_simple env path r.2.1
      (r2.1, r2.2.1, r.2.2 ++ ("FFmpeg failed, trying pydub: " ++ e) :: r2.2.2)
  else
    extract_audio_from_video_simple env path c

/-- Compressed-audio branch of convert_to_wav: load with pydub using the
extension-selected format hint, resample to mono 16 kHz, then create a
temp file and export into it. -/
def convCompressed (env : Env) (path : String) (ext : String) (c : Core) :
    Except String String × Core × List String :=
  let hint := audioFormatHint ext
  let c1 := { c with hintsUsed := c.hintsUsed ++ [hint] }
  let l0 := ["Converting audio file: " ++ path]
  match env.pydubLoad hint with
  | Except.error e =>
    (Except.error ("Could not load audio file: " ++ e), c1,
      l0 ++ ["Error loading audio with pydub: " ++ e])
  | Except.ok audio =>
    let audio2 := set_frame_rate (set_channels audio 1) 16000
    let nc := createTemp c1
    (Except.ok nc.1, writeFile nc.2 nc.1 audio2,
      l0 ++ ["Audio loaded successfully", "Audio converted to WAV: " ++ nc.1])

/-- MediaTranscriber.convert_to_wav: dispatch on the lowercased file
extension — video formats to the strategy chain, .wav returned as-is
with no conversion, everything else to the compressed-audio branch. -/
def convert_to_wav (env : Env) (media_file_path : String) (c : Core) :
    Except String String × Core × List String :=
  let file_ext := lowerExtOf media_file_path
  let l0 := ["Processing file with extension: " ++ file_ext]
  if video_formats.contains file_ext then
    let r := convVideo env media_file_path c
    (r.1, r.2.1, l0 ++ r.2.2)
  else if file_ext == ".wav" then
    (Except.ok media_file_path, c, l0 ++ ["File is already WAV format"])
  else
    let r := convCompressed env media_file_path file_ext c
    (r.1, r.2.1, l0 ++ r.2.2)

/-- The recognition phase of transcribe_media_file: open the WAV file,
issue one backend request, and either frame the non-whitespace result
text between the sentinels on stdout or report the outcome on stderr.
Failures (unreadable file, unintelligible audio, backend request error)
are the ones the except-clauses of the source catch and log. -/
def recognitionStep (env : Env) (wav_file_path : String) (c : Core) :
    Core × List String :=
  match c.disk.lookup wav_file_path with
  | some (some _) =>
    match env.recognize with
    | RecResult.text t =>
      if strTrim t == "" then
        (c, ["No speech detected in media file"])
      else
        ({ c with stdoutLines := c.stdoutLines
            ++ ["TRANSCRIPTION_START", t, "TRANSCRIPTION_END"] }, [])
    | RecResult.unknownValue =>
      (c, ["Could not understand audio in the file"])
    | RecResult.requestError m =>
      (c, ["Could not request results from speech recognition service: " ++ m])
  | some none =>
    (c, ["Error transcribing media file: could not read audio data"])
  | none =>
    (c, ["Error transcribing media file: audio file missing"])

/-- The finally-block of transcribe_media_file: when a temp path was
recorded and the file still exists, try to unlink it; a failed unlink is
only logged. -/
def cleanupTemp (env : Env) (temp_wav_path : Option String) (c : Core) :
    Core × List String :=
  match temp_wav_path with
  | none => (c, [])
  | some p =>
    if fileExists c p then
      if env.unlinkOk then
        ({ c with disk := c.disk.filter (fun e => e.fst != p) },
          ["Cleaned up temporary file: " ++ p])
      else
        (c, ["Could not clean up temporary file: unlink failed"])
    else (c, [])

/-- MediaTranscriber.transcribe_media_file: existence check, conversion,
recording of the temp path only when conversion returned a new file,
recognition, and guaranteed cleanup; every raised error is caught and
logged, so the method itself always returns normally. -/
def transcribe_media_file (env : Env) (media_file_path : String) (c : Core) :
    Except String Unit × Core × List String :=
  let l0 := ["Starting transcription of: " ++ media_file_path]
  if fileExists c media_file_path then
    let q := convert_to_wav env media_file_path c
    match q.1 with
    | Except.ok wav_file_path =>
      let temp_wav_path : Option String :=
        if wav_file_path == media_file_path then none else some wav_file_path
      let r := recognitionStep env wav_file_path q.2.1
      let cl := cleanupTemp env temp_wav_path r.1
      (Except.ok (), cl.1, l0 ++ q.2.2 ++ r.2 ++ cl.2)
    | Except.error e =>
      (Except.ok (), q.2.1,
        l0 ++ q.2.2 ++ ["Error transcribing media file: " ++ e])
  else
    (Except.ok (), c,
      l0 ++ ["Error transcribing media file: File not found: " ++ media_file_path])

/-- check_dependencies: false exactly when a critical dependency
(SpeechRecognition or pydub) is missing. -/
def check_dependencies (env : Env) : Bool :=
  !env.missingCritical

/-- The command-line entry point: usage check, dependency check, input
existence check (each exiting with code 1), then the chunk-mode branch
— both arms of which call transcribe_media_file identically, the true
arm printing one extra diagnostic line — and exit code 0 on normal
return. -/
def main (env : Env) (argv : List String) (c : Core) :
    Nat × Core × List String :=
  let l0 := ["Audio transcription script starting...",
             "Arguments: " ++ String.intercalate " " argv]
  if argv.length < 2 then
    (1, c, l0 ++ ["Usage: python audio_transcribe.py <media_file_path> [language] [chunk_mode]"])
  else if !check_dependencies env then
    (1, c, l0 ++ ["Dependencies check failed"])
  else
    let media_file_path := argv.getD 1 ""
    let language := argv.getD 2 "en-US"
    let chunk_mode := argv.getD 3 "false"
    let l1 := l0 ++ ["Media file: " ++ media_file_path,
                     "Language: " ++ language,
                     "Chunk mode: " ++ chunk_mode]
    if !fileExists c media_file_path then
      (1, c, l1 ++ ["Media file not found: " ++ media_file_path])
    else
      let l2 := l1 ++ ["FFmpeg available: "
        ++ (if env.ffmpeg_available then "True" else "False")]
      let chunkLog := if lowerStr chunk_mode == "true"
        then ["Using chunk mode (not implemented in this version)"] else []
      let t := transcribe_media_file env media_file_path c
      match t.1 with
      | Except.ok _ =>
        (0, t.2.1, l2 ++ chunkLog ++ t.2.2 ++ ["Transcription completed successfully"])
      | Except.error e =>
        (1, t.2.1, l2 ++ chunkLog ++ t.2.2 ++ ["Fatal error: " ++ e])

/-- Environment with the unlink outcome overridden; used to state that
cleanup failure never changes anything but the diagnostic log. -/
def withUnlink (env : Env) (b : Bool) : Env := { env with unlinkOk := b }

/-! Concrete fixtures for the scenario theorems: a stereo 44.1 kHz
16-bit source, a 4-byte-wide source, and sessions exercising each
strategy path. -/

/-- Stereo 44.1 kHz 16-bit source audio. -/
def audSrc : Audio := ⟨2, 44100, 2⟩

/-- Stereo 22.05 kHz source audio with a 4-byte sample width. -/
def audWide : Audio := ⟨2, 22050, 4⟩

/-- Session where ffmpeg is available but exits with code 1 writing
nothing, pydub decodes fine, and the backend cannot understand
the audio. -/
def envFfmpegFails : Env :=
  { ffmpeg_available := true,
    ffmpeg := ⟨1, "boom town\nsecond line", false⟩,
    pydubLoad := fun _ => Except.ok audSrc,
    recognize := RecResult.unknownValue,
    unlinkOk := true,
    missingCritical := false }

/-- Session where ffmpeg exits 0 but writes nothing into the output
file. -/
def envRcZeroEmpty : Env :=
  { ffmpeg_available := true,
    ffmpeg := ⟨0, "harmless warning", false⟩,
    pydubLoad := fun _ => Except.error "x",
    recognize := RecResult.unknownValue,
    unlinkOk := true,
    missingCritical := false }

/-- Session where ffmpeg is unavailable and pydub cannot decode the
input either. -/
def envNoTool : Env :=
  { ffmpeg_available := false,
    ffmpeg := ⟨0, "", false⟩,
    pydubLoad := fun _ => Except.error "decode failed",
    recognize := RecResult.unknownValue,
    unlinkOk := true,
    missingCritical := false }

/-- Session where pydub decodes to a 4-byte-wide segment and the backend
returns the text hello. -/
def envMp3 : Env :=
  { ffmpeg_available := false,
    ffmpeg := ⟨0, "", false⟩,
    pydubLoad := fun _ => Except.ok audWide,
    recognize := RecResult.text "hello",
    unlinkOk := true,
    missingCritical := false }

/-- Session whose backend returns whitespace-only text. -/
def envWav : Env :=
  { ffmpeg_available := false,
    ffmpeg := ⟨0, "", false⟩,
    pydubLoad := fun _ => Except.error "x",
    recognize := RecResult.text "  ",
    unlinkOk := true,
    missingCritical := false }

/-- Disk holding one mp4 input. -/
def cClip : Core := ⟨0, [], [("clip.mp4", some audSrc)], [], [], 0, 0⟩

/-- Disk holding one mp3 input with 4-byte samples. -/
def cSong : Core := ⟨0, [], [("song.mp3", some audWide)], [], [], 0, 0⟩

/-- Disk holding one stereo 44.1 kHz wav input. -/
def cMusic : Core := ⟨0, [], [("music.wav", some audSrc)], [], [], 0, 0⟩

/-! Helper lemmas about the individual phases. -/

theorem cleanup_preserves (env : Env) (t : Option String) (c : Core) :
    (cleanupTemp env t c).1.stdoutLines = c.stdoutLines ∧
    (cleanupTemp env t c).1.tempsCreated = c.tempsCreated ∧
    (cleanupTemp env t c).1.hintsUsed = c.hintsUsed := by
  cases t with
  | none => exact ⟨rfl, rfl, rfl⟩
  | some p =>
    by_cases h1 : fileExists c p <;> by_cases h2 : env.unlinkOk <;>
      simp [cleanupTemp, h1, h2]

theorem recog_preserves (env : Env) (w : String) (c : Core) :
    (recognitionStep env w c).1.disk = c.disk ∧
    (recognitionStep env w c).1.tempsCreated = c.tempsCreated ∧
    (recognitionStep env w c).1.hintsUsed = c.hintsUsed := by
  unfold recognitionStep
  split
  · split
    · split <;> exact ⟨rfl, rfl, rfl⟩
    · exact ⟨rfl, rfl, rfl⟩
    · exact ⟨rfl, rfl, rfl⟩
  · exact ⟨rfl, rfl, rfl⟩
  · exact ⟨rfl, rfl, rfl⟩

theorem recog_stdout_cases (env : Env) (w : String) (c : Core) :
    (∃ t, env.recognize = RecResult.text t ∧ strTrim t ≠ "" ∧
      (recognitionStep env w c).1.stdoutLines
        = c.stdoutLines ++ ["TRANSCRIPTION_START", t, "TRANSCRIPTION_END"]) ∨
    (recognitionStep env w c).1.stdoutLines = c.stdoutLines := by
  unfold recognitionStep
  split
  · rename_i ha
    split
    · rename_i t ht
      split
      · exact Or.inr rfl
      · rename_i hws
        exact Or.inl ⟨t, ht, by simpa using hws, rfl⟩
    · exact Or.inr rfl
    · exact Or.inr rfl
  · exact Or.inr rfl
  · exact Or.inr rfl

theorem recog_stdout_ws (env : Env) (w : String) (c : Core) (t : String)
    (ht : env.recognize = RecResult.text t) (hws : strTrim t = "") :
    (recognitionStep env w c).1.stdoutLines = c.stdoutLines := by
  unfold recognitionStep
  split
  · rw [ht]
    simp [hws]
  · rfl
  · rfl

theorem transcribe_ok (env : Env) (p : String) (c : Core) :
    (transcribe_media_file env p c).1 = Except.ok () := by
  unfold transcribe_media_file
  dsimp only
  split
  · split <;> rfl
  · rfl

theorem lookup_filter_self (d : List (String × Option Audio)) (p : String) :
    (d.filter (fun e => e.fst != p)).lookup p = none := by
  induction d with
  | nil => rfl
  | cons h t ih =>
    by_cases hp : h.fst = p
    · simp [List.filter, hp, ih]
    · have : (h.fst != p) = true := by simpa using hp
      simp [List.filter, this, List.lookup]
      have : (p == h.fst) = false := by
        simpa using fun he => hp he.symm
      simp [this, ih]

theorem ffmpeg_ok (env : Env) (path : String) (c : Core)
    (h : env.ffmpeg.returncode = 0) :
    (extract_audio_from_video_ffmpeg env path c).1
      = Except.ok (tempName c.counter) := by
  simp [extract_audio_from_video_ffmpeg, createTemp, h]

theorem ffmpeg_err (env : Env) (path : String) (c : Core)
    (h : env.ffmpeg.returncode ≠ 0) :
    (extract_audio_from_video_ffmpeg env path c).1
      = Except.error ("FFmpeg failed with return code "
          ++ toString env.ffmpeg.returncode) := by
  simp [extract_audio_from_video_ffmpeg, createTemp, h]

theorem ffmpeg_stderr_logged (env : Env) (path : String) (c : Core)
    (h : env.ffmpeg.returncode ≠ 0) :
    ("FFmpeg stderr: " ++ env.ffmpeg.stderrText)
      ∈ (extract_audio_from_video_ffmpeg env path c).2.2 := by
  simp [extract_audio_from_video_ffmpeg, createTemp, h]

theorem ffmpeg_effects (env : Env) (path : String) (c : Core) :
    (extract_audio_from_video_ffmpeg env path c).2.1.ffmpegCalls = c.ffmpegCalls + 1 ∧
    (extract_audio_from_video_ffmpeg env path c).2.1.simpleCalls = c.simpleCalls ∧
    (extract_audio_from_video_ffmpeg env path c).2.1.counter = c.counter + 1 ∧
    (extract_audio_from_video_ffmpeg env path c).2.1.tempsCreated
      = c.tempsCreated ++ [tempName c.counter] ∧
    (extract_audio_from_video_ffmpeg env path c).2.1.hintsUsed = c.hintsUsed ∧
    (extract_audio_from_video_ffmpeg env path c).2.1.stdoutLines = c.stdoutLines := by
  unfold extract_audio_from_video_ffmpeg
  dsimp only
  by_cases hp : env.ffmpeg.producesOutput <;>
    by_cases hr : env.ffmpeg.returncode = 0 <;>
      simp [hp, hr, createTemp, writeFile]

theorem ffmpeg_disk (env : Env) (path : String) (c : Core) :
    (extract_audio_from_video_ffmpeg env path c).2.1.disk
      = (if env.ffmpeg.producesOutput
          then [(tempName c.counter, some (Audio.mk 1 16000 2)),
                (tempName c.counter, (none : Option Audio))]
          else [(tempName c.counter, (none : Option Audio))]) ++ c.disk := by
  unfold extract_audio_from_video_ffmpeg
  dsimp only
  by_cases hp : env.ffmpeg.producesOutput <;>
    by_cases hr : env.ffmpeg.returncode = 0 <;>
      simp [hp, hr, createTemp, writeFile]

theorem simple_ok (env : Env) (path : String) (c : Core) (a : Audio)
    (h : env.pydubLoad none = Except.ok a) :
    (extract_audio_from_video_simple env path c).1
      = Except.ok (tempName c.counter) ∧
    (extract_audio_from_video_simple env path c).2.1.disk
      = (tempName c.counter, some (Audio.mk 1 16000 a.sampleWidth))
          :: (tempName c.counter, none) :: c.disk := by
  unfold extract_audio_from_video_simple
  dsimp only
  rw [h]
  simp [createTemp, writeFile, set_channels, set_frame_rate]

theorem simple_err (env : Env) (path : String) (c : Core) (e : String)
    (h : env.pydubLoad none = Except.error e) :
    (extract_audio_from_video_simple env path c).1 = Except.error e := by
  unfold extract_audio_from_video_simple
  dsimp only
  rw [h]

theorem simple_effects (env : Env) (path : String) (c : Core) :
    (extract_audio_from_video_simple env path c).2.1.simpleCalls = c.simpleCalls + 1 ∧
    (extract_audio_from_video_simple env path c).2.1.ffmpegCalls = c.ffmpegCalls ∧
    (extract_audio_from_video_simple env path c).2.1.counter = c.counter + 1 ∧
    (extract_audio_from_video_simple env path c).2.1.tempsCreated
      = c.tempsCreated ++ [tempName c.counter] ∧
    (extract_audio_from_video_simple env path c).2.1.hintsUsed
      = c.hintsUsed ++ [none] ∧
    (extract_audio_from_video_simple env path c).2.1.stdoutLines = c.stdoutLines := by
  unfold extract_audio_from_video_simple
  dsimp only
  cases env.pydubLoad none <;> simp [createTemp, writeFile]

theorem compressed_ok (env : Env) (path ext : String) (c : Core) (a : Audio)
    (h : env.pydubLoad (audioFormatHint ext) = Except.ok a) :
    (convCompressed env path ext c).1 = Except.ok (tempName c.counter) ∧
    (convCompressed env path ext c).2.1.disk
      = (tempName c.counter, some (Audio.mk 1 16000 a.sampleWidth))
          :: (tempName c.counter, none) :: c.disk := by
  unfold convCompressed
  dsimp only
  rw [h]
  simp [createTemp, writeFile, set_channels, set_frame_rate]

theorem compressed_err (env : Env) (path ext : String) (c : Core) (e : String)
    (h : env.pydubLoad (audioFormatHint ext) = Except.error e) :
    (convCompressed env path ext c).1
      = Except.error ("Could not load audio file: " ++ e) := by
  unfold convCompressed
  dsimp only
  rw [h]

theorem compressed_effects (env : Env) (path ext : String) (c : Core) :
    (convCompressed env path ext c).2.1.hintsUsed
      = c.hintsUsed ++ [audioFormatHint ext] ∧
    (convCompressed env path ext c).2.1.ffmpegCalls = c.ffmpegCalls ∧
    (convCompressed env path ext c).2.1.simpleCalls = c.simpleCalls ∧
    (convCompressed env path ext c).2.1.stdoutLines = c.stdoutLines := by
  unfold convCompressed
  dsimp only
  cases env.pydubLoad (audioFormatHint ext) <;> simp [createTemp, writeFile]

theorem convert_video_branch (env : Env) (path : String) (c : Core)
    (h : video_formats.contains (lowerExtOf path) = true) :
    (convert_to_wav env path c).1 = (convVideo env path c).1 ∧
    (convert_to_wav env path c).2.1 = (convVideo env path c).2.1 := by
  unfold convert_to_wav
  dsimp only
  rw [h]
  simp

theorem convert_wav_branch (env : Env) (path : String) (c : Core)
    (h : lowerExtOf path = ".wav") :
    (convert_to_wav env path c).1 = Except.ok path ∧
    (convert_to_wav env path c).2.1 = c := by
  have hv : video_formats.contains ".wav" = false := by decide
  unfold convert_to_wav
  dsimp only
  rw [h, hv]
  simp

theorem convert_compressed_branch (env : Env) (path : String) (c : Core)
    (h1 : video_formats.contains (lowerExtOf path) = false)
    (h2 : lowerExtOf path ≠ ".wav") :
    (convert_to_wav env path c).1 = (convCompressed env path (lowerExtOf path) c).1 ∧
    (convert_to_wav env path c).2.1
      = (convCompressed env path (lowerExtOf path) c).2.1 := by
  have h2b : (lowerExtOf path == ".wav") = false := by simpa using h2
  unfold convert_to_wav
  dsimp only
  rw [h1, h2b]
  simp

theorem convVideo_unavailable (env : Env) (path : String) (c : Core)
    (h : env.ffmpeg_available = false) :
    convVideo env path c = extract_audio_from_video_simple env path c := by
  unfold convVideo
  rw [h]
  simp

theorem convVideo_tool_ok (env : Env) (path : String) (c : Core)
    (ha : env.ffmpeg_available = true) (hr : env.ffmpeg.returncode = 0) :
    (convVideo env path c).1 = Except.ok (tempName c.counter) ∧
    (convVideo env path c).2.1 = (extract_audio_from_video_ffmpeg env path c).2.1 := by
  unfold convVideo
  rw [ha]
  dsimp only
  rw [ffmpeg_ok env path c hr]
  simp

theorem convVideo_tool_fail (env : Env) (path : String) (c : Core)
    (ha : env.ffmpeg_available = true) (hr : env.ffmpeg.returncode ≠ 0) :
    (convVideo env path c).1
      = (extract_audio_from_video_simple env path
          (extract_audio_from_video_ffmpeg env path c).2.1).1 ∧
    (convVideo env path c).2.1
      = (extract_audio_from_video_simple env path
          (extract_audio_from_video_ffmpeg env path c).2.1).2.1 := by
  unfold convVideo
  rw [ha]
  dsimp only
  rw [ffmpeg_err env path c hr]
  simp

theorem convert_withUnlink (env : Env) (b : Bool) (path : String) (c : Core) :
    convert_to_wav (withUnlink env b) path c = convert_to_wav env path c := by
  cases env
  rfl

theorem recog_withUnlink (env : Env) (b : Bool) (w : String) (c : Core) :
    recognitionStep (withUnlink env b) w c = recognitionStep env w c := by
  cases env
  rfl

theorem transcribe_conv_ok_temp (env : Env) (path : String) (c : Core)
    (wav : String) (hf : fileExists c path = true)
    (hc : (convert_to_wav env path c).1 = Except.ok wav) (hne : wav ≠ path) :
    (transcribe_media_file env path c).2.1
      = (cleanupTemp env (some wav)
          (recognitionStep env wav (convert_to_wav env path c).2.1).1).1 := by
  have hb : (wav == path) = false := by simpa using hne
  unfold transcribe_media_file
  dsimp only
  simp only [hf, if_true, hc, hb]
  simp

theorem transcribe_conv_ok_same (env : Env) (path : String) (c : Core)
    (hf : fileExists c path = true)
    (hc : (convert_to_wav env path c).1 = Except.ok path) :
    (transcribe_media_file env path c).2.1
      = (recognitionStep env path (convert_to_wav env path c).2.1).1 := by
  unfold transcribe_media_file
  dsimp only
  simp only [hf, if_true, hc]
  simp [cleanupTemp]

theorem transcribe_conv_err (env : Env) (path : String) (c : Core) (e : String)
    (hf : fileExists c path = true)
    (hc : (convert_to_wav env path c).1 = Except.error e) :
    (transcribe_media_file env path c).2.1 = (convert_to_wav env path c).2.1 := by
  unfold transcribe_media_file
  dsimp only
  simp only [hf, if_true, hc]

theorem transcribe_withUnlink_stdout (env : Env) (b : Bool) (path : String)
    (c : Core) :
    (transcribe_media_file (withUnlink env b) path c).2.1.stdoutLines
      = (transcribe_media_file env path c).2.1.stdoutLines := by
  unfold transcribe_media_file
  dsimp only
  rw [convert_withUnlink]
  by_cases hf : fileExists c path
  · simp only [hf, if_true]
    cases hq : (convert_to_wav env path c).1 with
    | ok wav =>
      simp only [hq]
      rw [(cleanup_preserves _ _ _).1, (cleanup_preserves _ _ _).1,
          recog_withUnlink]
    | error e => simp only [hq]
  · simp [hf]

theorem main_run_ok (env : Env) (argv : List String) (c : Core)
    (h1 : 2 ≤ argv.length) (h2 : env.missingCritical = false)
    (h3 : fileExists c (argv.getD 1 "") = true) :
    (main env argv c).1 = 0 := by
  have hlt : ¬ (argv.length < 2) := by omega
  unfold main
  dsimp only
  simp only [if_neg hlt, check_dependencies, h2, Bool.not_false, h3]
  simp only [Bool.not_true, if_false, if_true]
  rw [transcribe_ok]
  simp

theorem lookup_cons_self (k : String) (v : Option Audio)
    (rest : List (String × Option Audio)) :
    ((k, v) :: rest).lookup k = some v := by
  simp [List.lookup]

theorem convVideo_stdout (env : Env) (path : String) (c : Core) :
    (convVideo env path c).2.1.stdoutLines = c.stdoutLines := by
  by_cases ha : env.ffmpeg_available
  · by_cases hr : env.ffmpeg.returncode = 0
    · rw [(convVideo_tool_ok env path c ha hr).2]
      exact (ffmpeg_effects env path c).2.2.2.2.2
    · rw [(convVideo_tool_fail env path c ha hr).2]
      rw [(simple_effects env path _).2.2.2.2.2]
      exact (ffmpeg_effects env path c).2.2.2.2.2
  · rw [convVideo_unavailable env path c (by simpa using ha)]
    exact (simple_effects env path c).2.2.2.2.2

theorem convert_stdout_preserved (env : Env) (path : String) (c : Core) :
    (convert_to_wav env path c).2.1.stdoutLines = c.stdoutLines := by
  by_cases hv : video_formats.contains (lowerExtOf path)
  · rw [(convert_video_branch env path c hv).2]
    exact convVideo_stdout env path c
  · by_cases hw : lowerExtOf path = ".wav"
    · rw [(convert_wav_branch env path c hw).2]
    · rw [(convert_compressed_branch env path c (by simpa using hv) hw).2]
      exact (compressed_effects env path _ c).2.2.2

theorem ffmpeg_disk_out (env : Env) (path : String) (c : Core)
    (h : env.ffmpeg.producesOutput = true) :
    (extract_audio_from_video_ffmpeg env path c).2.1.disk
      = (tempName c.counter, some (Audio.mk 1 16000 2))
          :: (tempName c.counter, none) :: c.disk := by
  rw [ffmpeg_disk, h]
  simp

theorem ffmpeg_disk_noout (env : Env) (path : String) (c : Core)
    (h : env.ffmpeg.producesOutput = false) :
    (extract_audio_from_video_ffmpeg env path c).2.1.disk
      = (tempName c.counter, none) :: c.disk := by
  rw [ffmpeg_disk, h]
  simp

theorem audioFormatHint_webm (e : String)
    (h : audioFormatHint e = some "webm") : e = ".webm" := by
  unfold audioFormatHint at h
  split_ifs at h with h1 h2 h3 h4 h5 h6 h7 h8
  · exact absurd h (by decide)
  · exact absurd h (by decide)
  · exact absurd h (by decide)
  · exact absurd h (by decide)
  · exact absurd h (by decide)
  · exact absurd h (by decide)
  · exact absurd h (by decide)
  · simpa using h8

theorem convert_ok_main (env : Env) (path : String) (c : Core) (p : String)
    (hc : (convert_to_wav env path c).1 = Except.ok p) (hne : p ≠ path) :
    fileExists (convert_to_wav env path c).2.1 p = true ∧
    ∀ a, ((convert_to_wav env path c).2.1.disk.lookup p) = some (some a) →
      a.channels = 1 ∧ a.frameRate = 16000 ∧
      (a.sampleWidth = 2 ∨ ∃ hint src,
        env.pydubLoad hint = Except.ok src ∧ a.sampleWidth = src.sampleWidth) := by
  by_cases hv : video_formats.contains (lowerExtOf path)
  · obtain ⟨e1, e2⟩ := convert_video_branch env path c hv
    rw [e1] at hc
    rw [e2]
    by_cases ha : env.ffmpeg_available
    · by_cases hr : env.ffmpeg.returncode = 0
      · obtain ⟨f1, f2⟩ := convVideo_tool_ok env path c ha hr
        have hp : p = tempName c.counter := by
          rw [f1] at hc
          exact (Except.ok.inj hc).symm
        rw [f2]
        subst hp
        cases hprod : env.ffmpeg.producesOutput with
        | true =>
          have hd := ffmpeg_disk_out env path c hprod
          constructor
          · simp only [fileExists]
            rw [hd, lookup_cons_self]
            rfl
          · intro a hla
            rw [hd, lookup_cons_self] at hla
            have : Audio.mk 1 16000 2 = a := by simpa using hla
            subst this
            exact ⟨rfl, rfl, Or.inl rfl⟩
        | false =>
          have hd := ffmpeg_disk_noout env path c hprod
          constructor
          · simp only [fileExists]
            rw [hd, lookup_cons_self]
            rfl
          · intro a hla
            rw [hd, lookup_cons_self] at hla
            simp at hla
      · obtain ⟨f1, f2⟩ := convVideo_tool_fail env path c ha hr
        rw [f1] at hc
        rw [f2]
        cases hload : env.pydubLoad none with
        | error e =>
          rw [simple_err env path _ e hload] at hc
          exact Except.noConfusion hc
        | ok src =>
          obtain ⟨s1, s2⟩ := simple_ok env path _ src hload
          have hp : p = tempName (extract_audio_from_video_ffmpeg env path c).2.1.counter := by
            rw [s1] at hc
            exact (Except.ok.inj hc).symm
          subst hp
          constructor
          · simp only [fileExists]
            rw [s2, lookup_cons_self]
            rfl
          · intro a hla
            rw [s2, lookup_cons_self] at hla
            have : Audio.mk 1 16000 src.sampleWidth = a := by simpa using hla
            subst this
            exact ⟨rfl, rfl, Or.inr ⟨none, src, hload, rfl⟩⟩
    · rw [convVideo_unavailable env path c (by simpa using ha)] at hc ⊢
      cases hload : env.pydubLoad none with
      | error e =>
        rw [simple_err env path c e hload] at hc
        exact Except.noConfusion hc
      | ok src =>
        obtain ⟨s1, s2⟩ := simple_ok env path c src hload
        have hp : p = tempName c.counter := by
          rw [s1] at hc
          exact (Except.ok.inj hc).symm
        subst hp
        constructor
        · simp only [fileExists]
          rw [s2, lookup_cons_self]
          rfl
        · intro a hla
          rw [s2, lookup_cons_self] at hla
          have : Audio.mk 1 16000 src.sampleWidth = a := by simpa using hla
          subst this
          exact ⟨rfl, rfl, Or.inr ⟨none, src, hload, rfl⟩⟩
  · by_cases hw : lowerExtOf path = ".wav"
    · obtain ⟨w1, _⟩ := convert_wav_branch env path c hw
      rw [w1] at hc
      exact absurd (Except.ok.inj hc).symm hne
    · obtain ⟨e1, e2⟩ := convert_compressed_branch env path c (by simpa using hv) hw
      rw [e1] at hc
      rw [e2]
      cases hload : env.pydubLoad (audioFormatHint (lowerExtOf path)) with
      | error e =>
        rw [compressed_err env path _ c e hload] at hc
        exact Except.noConfusion hc
      | ok src =>
        obtain ⟨s1, s2⟩ := compressed_ok env path _ c src hload
        have hp : p = tempName c.counter := by
          rw [s1] at hc
          exact (Except.ok.inj hc).symm
        subst hp
        constructor
        · simp only [fileExists]
          rw [s2, lookup_cons_self]
          rfl
        · intro a hla
          rw [s2, lookup_cons_self] at hla
          have : Audio.mk 1 16000 src.sampleWidth = a := by simpa using hla
          subst this
          exact ⟨rfl, rfl, Or.inr ⟨audioFormatHint (lowerExtOf path), src, hload, rfl⟩⟩

theorem transcribe_not_exists (env : Env) (path : String) (c : Core)
    (h : fileExists c path = false) :
    (transcribe_media_file env path c).2.1 = c := by
  unfold transcribe_media_file
  dsimp only
  rw [h]
  simp

theorem cleanup_deletes (env : Env) (p : String) (c : Core)
    (hex : fileExists c p = true) (hu : env.unlinkOk = true) :
    fileExists (cleanupTemp env (some p) c).1 p = false := by
  unfold cleanupTemp
  dsimp only
  rw [hex, hu]
  simp only [if_true]
  simp only [fileExists, lookup_filter_self]
  rfl

/-! The claim theorems. -/

/-- C1: the claim says at most one temporary file is created per
invocation and that a failed ffmpeg attempt deletes its temp file before
the fallback.  The code violates this: in a session where ffmpeg is
available but fails and pydub succeeds, two temp files are created, the
one from the failed ffmpeg attempt is still on disk when the fallback
runs, and it is still on disk after the whole transcription session,
even though cleanup succeeded in deleting the other one. -/
theorem ffmpeg_fallback_leak_evidence :
    (transcribe_media_file envFfmpegFails "clip.mp4" cClip).1 = Except.ok () ∧
    (transcribe_media_file envFfmpegFails "clip.mp4" cClip).2.1.tempsCreated
      = ["tmp0.wav", "tmp1.wav"] ∧
    fileExists (convert_to_wav envFfmpegFails "clip.mp4" cClip).2.1 "tmp0.wav" = true ∧
    fileExists (transcribe_media_file envFfmpegFails "clip.mp4" cClip).2.1 "tmp0.wav" = true ∧
    fileExists (transcribe_media_file envFfmpegFails "clip.mp4" cClip).2.1 "tmp1.wav" = false ∧
    envFfmpegFails.unlinkOk = true :=
  ⟨rfl, rfl, rfl, rfl, rfl, rfl⟩

/-- C2 counterexample: the claim that every successful conversion yields
mono 16 kHz 16-bit audio at the returned path is false.  A stereo
44.1 kHz wav input is returned unchanged by the passthrough, and an mp3
decoded by pydub to 4-byte samples is exported with its 4-byte sample
width preserved. -/
theorem convert_normalization_counterexample :
    (¬ ∀ (env : Env) (path : String) (c : Core) (p : String),
        (convert_to_wav env path c).1 = Except.ok p →
        ∀ a, ((convert_to_wav env path c).2.1.disk.lookup p) = some (some a) →
          a.channels = 1 ∧ a.frameRate = 16000 ∧ a.sampleWidth = 2) ∧
    (convert_to_wav envWav "music.wav" cMusic).1 = Except.ok "music.wav" ∧
    ((convert_to_wav envWav "music.wav" cMusic).2.1.disk.lookup "music.wav")
      = some (some (Audio.mk 2 44100 2)) ∧
    (convert_to_wav envMp3 "song.mp3" cSong).1 = Except.ok "tmp0.wav" ∧
    ((convert_to_wav envMp3 "song.mp3" cSong).2.1.disk.lookup "tmp0.wav")
      = some (some (Audio.mk 1 16000 4)) := by
  refine ⟨?_, rfl, rfl, rfl, rfl⟩
  intro h
  have hm := h envWav "music.wav" cMusic "music.wav" rfl (Audio.mk 2 44100 2) rfl
  exact absurd hm.1 (by decide)

/-- C2 amended: when conversion succeeds with a path other than the
input (so not the wav passthrough), any audio present at the returned
path is mono and 16000 Hz; its sample width is 2 bytes when it came
from the ffmpeg strategy and otherwise equals the sample width of the
segment pydub decoded. -/
theorem convert_output_normalized (env : Env) (path : String) (c : Core)
    (p : String) (hc : (convert_to_wav env path c).1 = Except.ok p)
    (hne : p ≠ path) :
    ∀ a, ((convert_to_wav env path c).2.1.disk.lookup p) = some (some a) →
      a.channels = 1 ∧ a.frameRate = 16000 ∧
      (a.sampleWidth = 2 ∨ ∃ hint src,
        env.pydubLoad hint = Except.ok src ∧ a.sampleWidth = src.sampleWidth) :=
  (convert_ok_main env path c p hc hne).2

/-- C2 witness: the amended theorem applied to the concrete mp3
session. -/
theorem convert_output_normalized_witness :
    (convert_to_wav envMp3 "song.mp3" cSong).1 = Except.ok "tmp0.wav" ∧
    "tmp0.wav" ≠ "song.mp3" ∧
    ((Audio.mk 1 16000 4).channels = 1 ∧ (Audio.mk 1 16000 4).frameRate = 16000 ∧
      ((Audio.mk 1 16000 4).sampleWidth = 2 ∨ ∃ hint src,
        envMp3.pydubLoad hint = Except.ok src ∧
        (Audio.mk 1 16000 4).sampleWidth = src.sampleWidth)) :=
  ⟨rfl, by decide,
    convert_output_normalized envMp3 "song.mp3" cSong "tmp0.wav" rfl
      (by decide) (Audio.mk 1 16000 4) rfl⟩

/-- C3: a wav input short-circuits conversion: the original path is
returned, the state is untouched by the conversion, and the full
transcription session creates no temp file and leaves the disk, and in
particular the original input file, exactly as it was. -/
theorem wav_short_circuit (env : Env) (path : String) (c : Core)
    (hext : lowerExtOf path = ".wav") (hex : fileExists c path = true) :
    (convert_to_wav env path c).1 = Except.ok path ∧
    (convert_to_wav env path c).2.1 = c ∧
    (transcribe_media_file env path c).1 = Except.ok () ∧
    (transcribe_media_file env path c).2.1.tempsCreated = c.tempsCreated ∧
    (transcribe_media_file env path c).2.1.disk = c.disk := by
  obtain ⟨w1, w2⟩ := convert_wav_branch env path c hext
  have ht := transcribe_conv_ok_same env path c hex w1
  refine ⟨w1, w2, transcribe_ok env path c, ?_, ?_⟩
  · rw [ht, (recog_preserves env path _).2.1, w2]
  · rw [ht, (recog_preserves env path _).1, w2]

/-- C3 witness: the wav short-circuit theorem applied to the concrete
stereo wav session. -/
theorem wav_short_circuit_witness :
    lowerExtOf "music.wav" = ".wav" ∧ fileExists cMusic "music.wav" = true ∧
    ((convert_to_wav envWav "music.wav" cMusic).1 = Except.ok "music.wav" ∧
     (convert_to_wav envWav "music.wav" cMusic).2.1 = cMusic ∧
     (transcribe_media_file envWav "music.wav" cMusic).1 = Except.ok () ∧
     (transcribe_media_file envWav "music.wav" cMusic).2.1.tempsCreated
       = cMusic.tempsCreated ∧
     (transcribe_media_file envWav "music.wav" cMusic).2.1.disk = cMusic.disk) :=
  ⟨by decide, by decide,
    wav_short_circuit envWav "music.wav" cMusic (by decide) (by decide)⟩

/-- C4 counterexample: an invocation can create a temporary file that is
never deleted even though deletion would succeed: when both strategies
run through the pydub path and the decode fails after the temp file was
created, conversion raises before the temp path is recorded, so the
finally-block has nothing to delete and the file stays on disk. -/
theorem cleanup_counterexample :
    (transcribe_media_file envNoTool "clip.mp4" cClip).1 = Except.ok () ∧
    (transcribe_media_file envNoTool "clip.mp4" cClip).2.1.tempsCreated
      = ["tmp0.wav"] ∧
    envNoTool.unlinkOk = true ∧
    fileExists (transcribe_media_file envNoTool "clip.mp4" cClip).2.1 "tmp0.wav"
      = true :=
  ⟨rfl, rfl, rfl, rfl⟩

/-- C4 amended: for every invocation where conversion returned an owned
temporary file (a path different from the input), the cleanup step is
reached and deletes that file whenever deletion succeeds, regardless of
the recognition outcome; a deletion failure changes neither the primary
output stream nor the returned result. -/
theorem owned_temp_cleanup (env : Env) (path : String) (c : Core) (p : String)
    (hex : fileExists c path = true)
    (hc : (convert_to_wav env path c).1 = Except.ok p) (hne : p ≠ path) :
    (transcribe_media_file env path c).1 = Except.ok () ∧
    (env.unlinkOk = true →
      fileExists (transcribe_media_file env path c).2.1 p = false) ∧
    (transcribe_media_file (withUnlink env true) path c).2.1.stdoutLines
      = (transcribe_media_file (withUnlink env false) path c).2.1.stdoutLines ∧
    (transcribe_media_file (withUnlink env true) path c).1
      = (transcribe_media_file (withUnlink env false) path c).1 := by
  refine ⟨transcribe_ok env path c, ?_, ?_, ?_⟩
  · intro hu
    rw [transcribe_conv_ok_temp env path c p hex hc hne]
    apply cleanup_deletes env p _ ?_ hu
    have hd := (recog_preserves env p (convert_to_wav env path c).2.1).1
    have hcv := (convert_ok_main env path c p hc hne).1
    simp only [fileExists] at hcv ⊢
    rw [hd]
    exact hcv
  · calc (transcribe_media_file (withUnlink env true) path c).2.1.stdoutLines
        = (transcribe_media_file env path c).2.1.stdoutLines :=
          transcribe_withUnlink_stdout env true path c
      _ = (transcribe_media_file (withUnlink env false) path c).2.1.stdoutLines :=
          (transcribe_withUnlink_stdout env false path c).symm
  · rw [transcribe_ok, transcribe_ok]

/-- C4 witness: the amended cleanup theorem applied to the concrete mp3
session. -/
theorem owned_temp_cleanup_witness :
    fileExists cSong "song.mp3" = true ∧
    (convert_to_wav envMp3 "song.mp3" cSong).1 = Except.ok "tmp0.wav" ∧
    "tmp0.wav" ≠ "song.mp3" ∧
    ((transcribe_media_file envMp3 "song.mp3" cSong).1 = Except.ok () ∧
     (envMp3.unlinkOk = true →
       fileExists (transcribe_media_file envMp3 "song.mp3" cSong).2.1 "tmp0.wav"
         = false) ∧
     (transcribe_media_file (withUnlink envMp3 true) "song.mp3" cSong).2.1.stdoutLines
       = (transcribe_media_file (withUnlink envMp3 false) "song.mp3" cSong).2.1.stdoutLines ∧
     (transcribe_media_file (withUnlink envMp3 true) "song.mp3" cSong).1
       = (transcribe_media_file (withUnlink envMp3 false) "song.mp3" cSong).1) :=
  ⟨by decide, rfl, by decide,
    owned_temp_cleanup envMp3 "song.mp3" cSong "tmp0.wav" (by decide) rfl
      (by decide)⟩

/-- C5 counterexample: the error raised on a non-zero ffmpeg exit code
carries only the return code, not the first line of the captured
diagnostic stream; and an exit code of zero with an empty output file is
not treated as failure: the path of the empty file is returned as a
success. -/
theorem ffmpeg_failure_counterexample :
    (¬ ∀ (env : Env) (path : String) (c : Core) (msg : String),
        (extract_audio_from_video_ffmpeg env path c).1 = Except.error msg →
        strContainsB msg (firstLine env.ffmpeg.stderrText) = true) ∧
    (¬ ∀ (env : Env) (path : String) (c : Core),
        (env.ffmpeg.returncode ≠ 0 ∨ env.ffmpeg.producesOutput = false) →
        ∃ msg, (extract_audio_from_video_ffmpeg env path c).1
          = Except.error msg) := by
  constructor
  · intro h
    have hm := h envFfmpegFails "clip.mp4" cClip
      "FFmpeg failed with return code 1" rfl
    exact absurd hm (by decide)
  · intro h
    obtain ⟨msg, hm⟩ := h envRcZeroEmpty "clip.mp4" cClip (Or.inr rfl)
    have hok : (extract_audio_from_video_ffmpeg envRcZeroEmpty "clip.mp4" cClip).1
        = Except.ok "tmp0.wav" := rfl
    rw [hok] at hm
    exact Except.noConfusion hm

/-- C5 amended: a non-zero exit code raises an error naming the return
code, with the full captured diagnostic stream printed to the secondary
stream rather than included in the payload; a zero exit code returns the
temp path without checking the output file, so an empty output file is
returned silently. -/
theorem ffmpeg_failure_contract (env : Env) (path : String) (c : Core) :
    (env.ffmpeg.returncode ≠ 0 →
      (extract_audio_from_video_ffmpeg env path c).1
        = Except.error ("FFmpeg failed with return code "
            ++ toString env.ffmpeg.returncode) ∧
      ("FFmpeg stderr: " ++ env.ffmpeg.stderrText)
        ∈ (extract_audio_from_video_ffmpeg env path c).2.2) ∧
    (env.ffmpeg.returncode = 0 →
      (extract_audio_from_video_ffmpeg env path c).1
        = Except.ok (tempName c.counter) ∧
      (env.ffmpeg.producesOutput = false →
        ((extract_audio_from_video_ffmpeg env path c).2.1.disk.lookup
            (tempName c.counter)) = some none)) := by
  constructor
  · intro hr
    exact ⟨ffmpeg_err env path c hr, ffmpeg_stderr_logged env path c hr⟩
  · intro hr
    refine ⟨ffmpeg_ok env path c hr, ?_⟩
    intro hp
    rw [ffmpeg_disk_noout env path c hp, lookup_cons_self]

/-- C5 witness: the amended contract applied to the concrete failing
ffmpeg session. -/
theorem ffmpeg_failure_contract_witness :
    envFfmpegFails.ffmpeg.returncode ≠ 0 ∧
    ((extract_audio_from_video_ffmpeg envFfmpegFails "clip.mp4" cClip).1
      = Except.error ("FFmpeg failed with return code "
          ++ toString envFfmpegFails.ffmpeg.returncode) ∧
     ("FFmpeg stderr: " ++ envFfmpegFails.ffmpeg.stderrText)
       ∈ (extract_audio_from_video_ffmpeg envFfmpegFails "clip.mp4" cClip).2.2) :=
  ⟨by decide,
    (ffmpeg_failure_contract envFfmpegFails "clip.mp4" cClip).1 (by decide)⟩

/-- C6: for a supported video extension, when the cached probe says the
tool is available, ffmpeg is attempted exactly once and the pydub
library strategy runs if and only if the ffmpeg invocation fails
(non-zero exit code); when the probe says unavailable, pydub runs
directly and ffmpeg is never attempted. -/
theorem video_fallback_policy (env : Env) (path : String) (c : Core)
    (hv : video_formats.contains (lowerExtOf path) = true) :
    (env.ffmpeg_available = true →
      (convert_to_wav env path c).2.1.ffmpegCalls = c.ffmpegCalls + 1 ∧
      ((convert_to_wav env path c).2.1.simpleCalls = c.simpleCalls + 1 ↔
        env.ffmpeg.returncode ≠ 0)) ∧
    (env.ffmpeg_available = false →
      (convert_to_wav env path c).2.1.ffmpegCalls = c.ffmpegCalls ∧
      (convert_to_wav env path c).2.1.simpleCalls = c.simpleCalls + 1) := by
  obtain ⟨e1, e2⟩ := convert_video_branch env path c hv
  constructor
  · intro ha
    by_cases hr : env.ffmpeg.returncode = 0
    · obtain ⟨f1, f2⟩ := convVideo_tool_ok env path c ha hr
      rw [e2, f2]
      refine ⟨(ffmpeg_effects env path c).1, ?_⟩
      rw [(ffmpeg_effects env path c).2.1]
      constructor
      · intro hsc
        exact absurd hsc.symm (Nat.succ_ne_self _)
      · intro hn
        exact absurd hr hn
    · obtain ⟨f1, f2⟩ := convVideo_tool_fail env path c ha hr
      rw [e2, f2]
      have hs := simple_effects env path (extract_audio_from_video_ffmpeg env path c).2.1
      have hf := ffmpeg_effects env path c
      constructor
      · rw [hs.2.1, hf.1]
      · rw [hs.1, hf.2.1]
        exact ⟨fun _ => hr, fun _ => rfl⟩
  · intro ha
    rw [e2, convVideo_unavailable env path c ha]
    have hs := simple_effects env path c
    exact ⟨hs.2.1, hs.1⟩

/-- C6 witness: the fallback policy applied to the concrete session
where ffmpeg is available and fails. -/
theorem video_fallback_policy_witness :
    video_formats.contains (lowerExtOf "clip.mp4") = true ∧
    ((envFfmpegFails.ffmpeg_available = true →
      (convert_to_wav envFfmpegFails "clip.mp4" cClip).2.1.ffmpegCalls
        = cClip.ffmpegCalls + 1 ∧
      ((convert_to_wav envFfmpegFails "clip.mp4" cClip).2.1.simpleCalls
          = cClip.simpleCalls + 1 ↔
        envFfmpegFails.ffmpeg.returncode ≠ 0)) ∧
    (envFfmpegFails.ffmpeg_available = false →
      (convert_to_wav envFfmpegFails "clip.mp4" cClip).2.1.ffmpegCalls
        = cClip.ffmpegCalls ∧
      (convert_to_wav envFfmpegFails "clip.mp4" cClip).2.1.simpleCalls
        = cClip.simpleCalls + 1)) :=
  ⟨by decide, video_fallback_policy envFfmpegFails "clip.mp4" cClip (by decide)⟩

/-- C7: the primary output stream of a transcription carries either
exactly the sentinel-framed three lines for a backend text whose
trimmed form is non-empty, or nothing at all; a whitespace-only backend
text adds nothing to the primary stream, exactly like the no-speech
outcome. -/
theorem stdout_protocol (env : Env) (path : String) (c : Core) :
    ((∃ t, env.recognize = RecResult.text t ∧ strTrim t ≠ "" ∧
       (transcribe_media_file env path c).2.1.stdoutLines
         = c.stdoutLines ++ ["TRANSCRIPTION_START", t, "TRANSCRIPTION_END"]) ∨
     (transcribe_media_file env path c).2.1.stdoutLines = c.stdoutLines) ∧
    (∀ t, env.recognize = RecResult.text t → strTrim t = "" →
       (transcribe_media_file env path c).2.1.stdoutLines = c.stdoutLines) := by
  by_cases hf : fileExists c path
  · cases hq : (convert_to_wav env path c).1 with
    | error e =>
      have ht := transcribe_conv_err env path c e hf hq
      constructor
      · right
        rw [ht, convert_stdout_preserved]
      · intro t _ _
        rw [ht, convert_stdout_preserved]
    | ok wav =>
      by_cases hw : wav = path
      · subst hw
        have ht := transcribe_conv_ok_same env wav c hf hq
        constructor
        · rcases recog_stdout_cases env wav ((convert_to_wav env wav c).2.1) with
            ⟨t, ht1, ht2, ht3⟩ | hsame
          · exact Or.inl ⟨t, ht1, ht2, by rw [ht, ht3, convert_stdout_preserved]⟩
          · right
            rw [ht, hsame, convert_stdout_preserved]
        · intro t htx hws
          rw [ht, recog_stdout_ws env wav _ t htx hws, convert_stdout_preserved]
      · have ht := transcribe_conv_ok_temp env path c wav hf hq hw
        constructor
        · rcases recog_stdout_cases env wav ((convert_to_wav env path c).2.1) with
            ⟨t, ht1, ht2, ht3⟩ | hsame
          · exact Or.inl ⟨t, ht1, ht2, by
              rw [ht, (cleanup_preserves _ _ _).1, ht3, convert_stdout_preserved]⟩
          · right
            rw [ht, (cleanup_preserves _ _ _).1, hsame, convert_stdout_preserved]
        · intro t htx hws
          rw [ht, (cleanup_preserves _ _ _).1,
              recog_stdout_ws env wav _ t htx hws, convert_stdout_preserved]
  · have ht := transcribe_not_exists env path c (by simpa using hf)
    constructor
    · right
      rw [ht]
    · intro t _ _
      rw [ht]

/-- C7 witness: a whitespace-only backend text leaves the primary stream
of the concrete wav session untouched. -/
theorem stdout_protocol_witness :
    envWav.recognize = RecResult.text "  " ∧ strTrim "  " = "" ∧
    (transcribe_media_file envWav "music.wav" cMusic).2.1.stdoutLines
      = cMusic.stdoutLines :=
  ⟨rfl, by decide, (stdout_protocol envWav "music.wav" cMusic).2 "  " rfl (by decide)⟩

/-- C8 counterexample: running with the chunk-mode flag set to true does
not produce exactly the same output streams as running with false — the
diagnostic stream echoes the flag and carries one extra informational
line — although the exit code is unchanged. -/
theorem chunk_mode_counterexample :
    (main envWav ["audio_transcribe.py", "music.wav", "en-US", "true"] cMusic).2.2
      ≠ (main envWav ["audio_transcribe.py", "music.wav", "en-US", "false"] cMusic).2.2 ∧
    (main envWav ["audio_transcribe.py", "music.wav", "en-US", "true"] cMusic).1
      = (main envWav ["audio_transcribe.py", "music.wav", "en-US", "false"] cMusic).1 :=
  ⟨by decide, rfl⟩

/-- C8 amended: the chunk-mode flag is a no-op for everything except the
diagnostic stream: with the flag true, false or absent, the exit code,
the primary output stream, the files on disk and the temp files created
are identical, and the flag never causes an error; only the diagnostic
stream differs, by the echoed flag value and one informational line. -/
theorem chunk_mode_equivalence (env : Env) (prog media lang : String) (c : Core) :
    (main env [prog, media, lang, "true"] c).1
      = (main env [prog, media, lang, "false"] c).1 ∧
    (main env [prog, media, lang, "true"] c).2.1
      = (main env [prog, media, lang, "false"] c).2.1 ∧
    (main env [prog, media, lang, "false"] c).1
      = (main env [prog, media, lang] c).1 ∧
    (main env [prog, media, lang, "false"] c).2.1
      = (main env [prog, media, lang] c).2.1 := by
  have hT : (lowerStr "true" == "true") = true := by decide
  have hF : (lowerStr "false" == "true") = false := by decide
  by_cases hd : env.missingCritical <;> by_cases he : fileExists c media <;>
    simp [main, check_dependencies, hd, he, hT, hF, List.getD, transcribe_ok]

/-- C9: transcribe_media_file never propagates an error to its caller,
and the entry point exits 0 whenever the usage, dependency and
input-existence pre-checks pass; conversely an exit code of 1 implies
one of those pre-checks failed. -/
theorem no_exception_escape :
    (∀ (env : Env) (path : String) (c : Core),
      (transcribe_media_file env path c).1 = Except.ok ()) ∧
    (∀ (env : Env) (argv : List String) (c : Core),
      2 ≤ argv.length → env.missingCritical = false →
      fileExists c (argv.getD 1 "") = true → (main env argv c).1 = 0) ∧
    (∀ (env : Env) (argv : List String) (c : Core),
      (main env argv c).1 = 1 →
      argv.length < 2 ∨ env.missingCritical = true ∨
        fileExists c (argv.getD 1 "") = false) := by
  refine ⟨transcribe_ok, main_run_ok, ?_⟩
  intro env argv c h
  by_contra hn
  push_neg at hn
  obtain ⟨h1, h2, h3⟩ := hn
  have h2b : env.missingCritical = false := by simpa using h2
  have h3b : fileExists c (argv.getD 1 "") = true := by simpa using h3
  have h0 := main_run_ok env argv c (by omega) h2b h3b
  rw [h0] at h
  exact absurd h (by decide)

/-- C9 witness: a concrete wav session where the pre-checks pass exits
with code 0 even though the backend returns whitespace-only text. -/
theorem no_exception_escape_witness :
    2 ≤ (["audio_transcribe.py", "music.wav"] : List String).length ∧
    envWav.missingCritical = false ∧
    fileExists cMusic ((["audio_transcribe.py", "music.wav"] : List String).getD 1 "")
      = true ∧
    (main envWav ["audio_transcribe.py", "music.wav"] cMusic).1 = 0 :=
  ⟨by decide, rfl, by decide,
    no_exception_escape.2.1 envWav ["audio_transcribe.py", "music.wav"] cMusic
      (by decide) rfl (by decide)⟩

/-- C10: the webm arm of the compressed-audio decode branch is dead
code: no run of convert_to_wav ever passes the webm format hint to the
decoding library, because a webm extension is always captured first by
the video-formats dispatch. -/
theorem webm_branch_dead (env : Env) (path : String) (c : Core) :
    ∃ extra, (convert_to_wav env path c).2.1.hintsUsed = c.hintsUsed ++ extra ∧
      (some "webm") ∉ extra := by
  by_cases hv : video_formats.contains (lowerExtOf path)
  · rw [(convert_video_branch env path c hv).2]
    by_cases ha : env.ffmpeg_available
    · by_cases hr : env.ffmpeg.returncode = 0
      · refine ⟨[], ?_, by simp⟩
        rw [(convVideo_tool_ok env path c ha hr).2,
            (ffmpeg_effects env path c).2.2.2.2.1]
        simp
      · refine ⟨[none], ?_, by simp⟩
        rw [(convVideo_tool_fail env path c ha hr).2,
            (simple_effects env path _).2.2.2.2.1,
            (ffmpeg_effects env path c).2.2.2.2.1]
    · refine ⟨[none], ?_, by simp⟩
      rw [convVideo_unavailable env path c (by simpa using ha),
          (simple_effects env path c).2.2.2.2.1]
  · by_cases hw : lowerExtOf path = ".wav"
    · refine ⟨[], ?_, by simp⟩
      rw [(convert_wav_branch env path c hw).2]
      simp
    · refine ⟨[audioFormatHint (lowerExtOf path)], ?_, ?_⟩
      · rw [(convert_compressed_branch env path c (by simpa using hv) hw).2,
            (compressed_effects env path _ c).1]
      · simp only [List.mem_singleton]
        intro hcontra
        have hext := audioFormatHint_webm _ hcontra.symm
        rw [hext] at hv
        exact hv (by decide)

end AudioTranscribe
